import Mathlib

/-!
Verification of the notification dispatch core of the GYM-Automation backend
(`backend/notifications/services.py` and the audit model in
`backend/members/models.py`), as a shallow embedding in Lean 4.

Modelling conventions:
* Django `settings` is an explicit `Settings` record passed to every function
  that reads it (the source reads it lazily via `getattr` with defaults).
* Python strings are Lean `String`; Python string slicing `s[:n]` is embedded
  as `strSlice s n` (first `n` characters).
* The effectful environment is passed explicitly: the provider `send` call is
  a function argument, the random hex token drawn by `uuid.uuid4().hex` and
  the wall-clock timestamp are explicit inputs, and the database primitive
  `MessageLog.objects.create` is a function argument that may fail
  (`Except`), embedding a raising Python call.
* Python `int` is `Int`; counts of list elements are `Nat`.
-/

/-- Django settings read by the notification core: `GYM_NAME` and
`NOTIFICATION_PROVIDER`, each optional (the source uses `getattr` with a
default). -/
structure Settings where
  GYM_NAME : Option String := none
  NOTIFICATION_PROVIDER : Option String := none
deriving Repr

/-- Embeds Python string slicing `s[:n]`: the first `n` characters of `s`. -/
def strSlice (s : String) (n : Nat) : String := String.mk (s.data.take n)

/-- `class NotificationType(Enum)` from `services.py`. -/
inductive NotificationType where
  | MEMBERSHIP_CONFIRMATION
  | EXPIRY_REMINDER
  | MEMBERSHIP_EXPIRED
  | BROADCAST
  | PAYMENT_REMINDER
  | WELCOME
  | RENEWAL_SUCCESS
deriving DecidableEq, Repr

/-- The `.value` string of each `NotificationType` member. -/
def NotificationType.value : NotificationType → String
  | .MEMBERSHIP_CONFIRMATION => "membership_confirmation"
  | .EXPIRY_REMINDER => "expiry_reminder"
  | .MEMBERSHIP_EXPIRED => "membership_expired"
  | .BROADCAST => "broadcast"
  | .PAYMENT_REMINDER => "payment_reminder"
  | .WELCOME => "welcome"
  | .RENEWAL_SUCCESS => "renewal_success"

/-- `class DeliveryChannel(Enum)` from `services.py`. -/
inductive DeliveryChannel where
  | SMS
  | WHATSAPP
  | EMAIL
  | PUSH
deriving DecidableEq, Repr

/-- The `.value` string of each `DeliveryChannel` member. -/
def DeliveryChannel.value : DeliveryChannel → String
  | .SMS => "sms"
  | .WHATSAPP => "whatsapp"
  | .EMAIL => "email"
  | .PUSH => "push"

/-- `class DeliveryStatus(Enum)` from `services.py`. -/
inductive DeliveryStatus where
  | PENDING
  | SENT
  | DELIVERED
  | FAILED
  | MOCK
deriving DecidableEq, Repr

/-- The `.value` string of each `DeliveryStatus` member. -/
def DeliveryStatus.value : DeliveryStatus → String
  | .PENDING => "pending"
  | .SENT => "sent"
  | .DELIVERED => "delivered"
  | .FAILED => "failed"
  | .MOCK => "mock"

/-- `@dataclass NotificationResult` from `services.py`.  `metadata` values in
the source are strings, so the mapping is a string association list. -/
structure NotificationResult where
  success : Bool
  message_id : Option String := none
  status : DeliveryStatus := DeliveryStatus.PENDING
  channel : DeliveryChannel := DeliveryChannel.SMS
  error : Option String := none
  metadata : Option (List (String × String)) := none
deriving DecidableEq, Repr

/-- `@dataclass BulkNotificationResult` from `services.py`. -/
structure BulkNotificationResult where
  total : Nat
  successful : Nat
  failed : Nat
  results : List NotificationResult
deriving DecidableEq, Repr

/-- The `success` property of `BulkNotificationResult`:
`return self.successful > 0`. -/
def BulkNotificationResult.success (b : BulkNotificationResult) : Bool :=
  decide (0 < b.successful)

namespace MessageTemplates

/-- `MessageTemplates.get_gym_name`:
`getattr(settings, 'GYM_NAME', 'FitZone Gym')`. -/
def get_gym_name (s : Settings) : String :=
  s.GYM_NAME.getD "FitZone Gym"

/-- `MessageTemplates.WELCOME` applied via `.format`. -/
def WELCOME (gym_name member_name : String) : String :=
  "Welcome to " ++ gym_name ++ ", " ++ member_name ++ "! 🎉 " ++
  "Your membership is now active. " ++
  "We\x27re excited to have you on this fitness journey!"

/-- `MessageTemplates.MEMBERSHIP_CONFIRMATION` applied via `.format`. -/
def MEMBERSHIP_CONFIRMATION (gym_name member_name plan_name end_date : String) : String :=
  "Hi " ++ member_name ++ ", your " ++ gym_name ++ " membership is confirmed! ✅ " ++
  "Plan: " ++ plan_name ++ " | Valid until: " ++ end_date ++ ". " ++
  "See you at the gym!"

/-- `MessageTemplates.EXPIRY_REMINDER` applied via `.format`. -/
def EXPIRY_REMINDER (member_name gym_name : String) (days_left : Int) (plural : String) : String :=
  "Hi " ++ member_name ++ ", your " ++ gym_name ++ " membership expires in " ++
  toString days_left ++ " day" ++ plural ++ ". " ++
  "Renew now to continue your fitness journey without interruption! 💪"

/-- `MessageTemplates.EXPIRY_TODAY` applied via `.format`. -/
def EXPIRY_TODAY (member_name gym_name : String) : String :=
  "⚠️ Hi " ++ member_name ++ ", your " ++ gym_name ++ " membership expires TODAY. " ++
  "Renew now to avoid any break in your training!"

/-- `MessageTemplates.MEMBERSHIP_EXPIRED` applied via `.format`. -/
def MEMBERSHIP_EXPIRED (member_name gym_name : String) : String :=
  "Hi " ++ member_name ++ ", your " ++ gym_name ++ " membership has expired. " ++
  "We miss you! Renew today and get back to achieving your goals. 🏋️"

/-- `MessageTemplates.RENEWAL_SUCCESS` applied via `.format`. -/
def RENEWAL_SUCCESS (gym_name member_name end_date : String) : String :=
  "Great news, " ++ member_name ++ "! 🎉 Your " ++ gym_name ++ " membership has been renewed. " ++
  "New validity: " ++ end_date ++ ". Keep up the amazing work!"

/-- `MessageTemplates.PAYMENT_REMINDER` applied via `.format`; `amount` arrives
already formatted by the caller (`f"{amount:,.2f}"`). -/
def PAYMENT_REMINDER (gym_name member_name amount : String) : String :=
  "Hi " ++ member_name ++ ", this is a reminder about your pending payment of ₹" ++ amount ++
  " at " ++ gym_name ++ ". Please clear it at your earliest convenience."

/-- `MessageTemplates.BROADCAST_PREFIX` applied via `.format`. -/
def BROADCAST_PREFIX (gym_name : String) : String :=
  "[" ++ gym_name ++ "] "

/-- `MessageTemplates.get_expiry_message`, branch for branch:
`if days_left <= 0: ... elif days_left == 0: ... else: ...`. -/
def get_expiry_message (s : Settings) (member_name : String) (days_left : Int) : String :=
  let gym_name := get_gym_name s
  if days_left ≤ 0 then
    MEMBERSHIP_EXPIRED member_name gym_name
  else if days_left = 0 then
    EXPIRY_TODAY member_name gym_name
  else
    EXPIRY_REMINDER member_name gym_name days_left
      (if days_left ≠ 1 then "s" else "")

end MessageTemplates

/-- Embeds Python `str.upper()` (character-wise uppercasing). -/
def pyUpper (s : String) : String := String.mk (s.data.map Char.toUpper)

/-- A calendar date as carried by `models.DateField` (`datetime.date`). -/
structure PyDate where
  year : Nat
  month : Nat
  day : Nat
deriving DecidableEq, Repr

/-- Abbreviated month name used by `strftime("%b")` for months 1..12. -/
def monthAbbrev : Nat → String
  | 1 => "Jan" | 2 => "Feb" | 3 => "Mar" | 4 => "Apr"
  | 5 => "May" | 6 => "Jun" | 7 => "Jul" | 8 => "Aug"
  | 9 => "Sep" | 10 => "Oct" | 11 => "Nov" | 12 => "Dec"
  | _ => ""

/-- Embeds `d.strftime('%d %b %Y')`: zero-padded day, abbreviated month,
full year. -/
def strftime_dbY (d : PyDate) : String :=
  (if d.day < 10 then "0" ++ toString d.day else toString d.day) ++ " " ++
  monthAbbrev d.month ++ " " ++ toString d.year

/-- The fields of `members.models.Member` read by the notification core
(`name`, `phone`, `membership_plan`, `end_date`); the core never reads or
mutates the rest. -/
structure Member where
  name : String
  phone : String
  membership_plan : String
  end_date : Option PyDate
deriving DecidableEq, Repr

/-- `Member.PLAN_CHOICES` from `members/models.py`. -/
def Member.PLAN_CHOICES : List (String × String) :=
  [("strength", "Strength"), ("cardio", "Cardio"), ("both", "Strength + Cardio")]

/-- A row of `members.models.MessageLog`: the audit record.  The
auto-assigned creation timestamp (`sent_at`, set once by the database) is
outside the model; `recipients` is the many-to-many member association. -/
structure MessageLog where
  message : String
  recipients : List Member
deriving DecidableEq, Repr

/-- The dynamically-typed `member` argument of
`NotificationService._log_notification`: `None`, a single model instance, or
an iterable (queryset/list) of members. -/
inductive LogTarget where
  | none
  | one (m : Member)
  | many (ms : List Member)
deriving DecidableEq, Repr

/-- The recipient association performed by `_log_notification`:
`if member is not None: if hasattr(member, '__iter__') ...` — no `set` call
for `None` (the row keeps its empty association), `set([member])` for a
single member, `set(member)` for an iterable. -/
def LogTarget.recipients_of : LogTarget → List Member
  | .none => []
  | .one m => [m]
  | .many ms => ms

/-- A recipient dict as consumed by `BaseNotificationProvider.send_bulk`
(`recipient['phone']`). -/
structure Recipient where
  phone : String
deriving DecidableEq, Repr

/-- `BaseNotificationProvider.send_bulk`: sequential loop over `send`,
aggregating counts.  The provider `send` method is passed explicitly. -/
def BaseNotificationProvider.send_bulk
    (send : String → String → NotificationResult)
    (recipients : List Recipient) (message : String) : BulkNotificationResult :=
  let results := recipients.map (fun r => send r.phone message)
  let successful := results.countP (fun r => r.success)
  { total := recipients.length
    successful := successful
    failed := recipients.length - successful
    results := results }

/-- `MockNotificationProvider.send`.  The random draw `uuid.uuid4().hex`
(a 32-character lowercase hex string) and `timezone.now().isoformat()` are
explicit inputs; the console print and logger line are side effects outside
the returned value. -/
def MockNotificationProvider.send (hexToken : String) (nowIso : String)
    (phone message : String) : NotificationResult :=
  let message_id := "mock_" ++ strSlice hexToken 12
  { success := true
    message_id := some message_id
    status := DeliveryStatus.MOCK
    channel := DeliveryChannel.SMS
    error := none
    metadata := some [("provider", "mock"), ("phone", phone), ("timestamp", nowIso)] }

/-- The only provider variant constructible in the source
(`MockNotificationProvider`; the real ones are commented-out TODOs). -/
inductive ProviderKind where
  | mock
deriving DecidableEq, Repr

/-- Outcome of `NotificationService._get_provider`: the returned provider,
the class-level `_provider` slot afterwards, and whether the unknown-name
warning was logged. -/
structure ProviderChoice where
  provider : ProviderKind
  state : Option ProviderKind
  warned : Bool
deriving DecidableEq, Repr

/-- `NotificationService._get_provider`: lazily constructs the provider from
`getattr(settings, 'NOTIFICATION_PROVIDER', 'mock')` when the `_provider`
slot (`current`) is empty, reuses it otherwise; unknown names warn and fall
back to the mock. -/
def NotificationService.get_provider (current : Option ProviderKind)
    (s : Settings) : ProviderChoice :=
  match current with
  | some p => { provider := p, state := some p, warned := false }
  | none =>
    let provider_name := s.NOTIFICATION_PROVIDER.getD "mock"
    if provider_name = "mock" then
      { provider := ProviderKind.mock, state := some ProviderKind.mock, warned := false }
    else
      { provider := ProviderKind.mock, state := some ProviderKind.mock, warned := true }

/-- `NotificationService._log_notification`.  The database primitive
`MessageLog.objects.create` (plus the recipient `set`) is embedded as `db`,
which either raises (`some error`) or durably stores the given text; the
source wraps the whole body in `try/except`, so a raise is swallowed
(`none` returned, nothing stored) and never propagated.  The `result`
argument is kept because the source signature has it. -/
def NotificationService.log_notification
    (db : String → Option String) (member : LogTarget) (message : String)
    (notification_type : NotificationType)
    (result : Option NotificationResult) : Option MessageLog :=
  let log_message := "[" ++ pyUpper notification_type.value ++ "] " ++ message
  match db log_message with
  | some _err => none
  | Option.none => some { message := log_message, recipients := member.recipients_of }

/-- Observable outcome of a single-recipient `NotificationService` operation:
the rendered message handed to the provider, the provider's result (which the
operation returns), the audit row, and the `NotificationType` passed to the
logger. -/
structure SendOutcome where
  message : String
  result : NotificationResult
  audit : Option MessageLog
  audit_type : NotificationType
deriving Repr

/-- `NotificationService.send_welcome_message`. -/
def NotificationService.send_welcome_message
    (send : String → String → NotificationResult) (db : String → Option String)
    (s : Settings) (member : Member) : SendOutcome :=
  let message := MessageTemplates.WELCOME (MessageTemplates.get_gym_name s) member.name
  let result := send member.phone message
  let audit := NotificationService.log_notification db (LogTarget.one member)
    message NotificationType.WELCOME (some result)
  { message := message, result := result, audit := audit,
    audit_type := NotificationType.WELCOME }

/-- Embeds the inline expression
`member.end_date.strftime('%d %b %Y') if member.end_date else 'N/A'`. -/
def end_date_display : Option PyDate → String
  | some d => strftime_dbY d
  | Option.none => "N/A"

/-- `NotificationService.send_membership_confirmation`:
`dict(member.PLAN_CHOICES).get(member.membership_plan, member.membership_plan)`
is the association-list lookup with fallback to the raw code. -/
def NotificationService.send_membership_confirmation
    (send : String → String → NotificationResult) (db : String → Option String)
    (s : Settings) (member : Member) : SendOutcome :=
  let plan_display :=
    (List.lookup member.membership_plan Member.PLAN_CHOICES).getD member.membership_plan
  let message := MessageTemplates.MEMBERSHIP_CONFIRMATION
    (MessageTemplates.get_gym_name s) member.name plan_display
    (end_date_display member.end_date)
  let result := send member.phone message
  let audit := NotificationService.log_notification db (LogTarget.one member)
    message NotificationType.MEMBERSHIP_CONFIRMATION (some result)
  { message := message, result := result, audit := audit,
    audit_type := NotificationType.MEMBERSHIP_CONFIRMATION }

/-- `NotificationService.send_expiry_reminder`. -/
def NotificationService.send_expiry_reminder
    (send : String → String → NotificationResult) (db : String → Option String)
    (s : Settings) (member : Member) (days_left : Int) : SendOutcome :=
  let message := MessageTemplates.get_expiry_message s member.name days_left
  let result := send member.phone message
  let notification_type :=
    if days_left ≤ 0 then NotificationType.MEMBERSHIP_EXPIRED
    else NotificationType.EXPIRY_REMINDER
  let audit := NotificationService.log_notification db (LogTarget.one member)
    message notification_type (some result)
  { message := message, result := result, audit := audit,
    audit_type := notification_type }

/-- `NotificationService.send_renewal_confirmation`. -/
def NotificationService.send_renewal_confirmation
    (send : String → String → NotificationResult) (db : String → Option String)
    (s : Settings) (member : Member) : SendOutcome :=
  let message := MessageTemplates.RENEWAL_SUCCESS
    (MessageTemplates.get_gym_name s) member.name
    (end_date_display member.end_date)
  let result := send member.phone message
  let audit := NotificationService.log_notification db (LogTarget.one member)
    message NotificationType.RENEWAL_SUCCESS (some result)
  { message := message, result := result, audit := audit,
    audit_type := NotificationType.RENEWAL_SUCCESS }

/-- `NotificationService.send_payment_reminder`.  The numeric formatting
`f"{amount:,.2f}"` (thousands separators, two decimals, over a Python float)
is outside the shallow embedding; `formatted_amount` stands for its output. -/
def NotificationService.send_payment_reminder
    (send : String → String → NotificationResult) (db : String → Option String)
    (s : Settings) (member : Member) (formatted_amount : String) : SendOutcome :=
  let message := MessageTemplates.PAYMENT_REMINDER
    (MessageTemplates.get_gym_name s) member.name formatted_amount
  let result := send member.phone message
  let audit := NotificationService.log_notification db (LogTarget.one member)
    message NotificationType.PAYMENT_REMINDER (some result)
  { message := message, result := result, audit := audit,
    audit_type := NotificationType.PAYMENT_REMINDER }

/-- Observable outcome of `NotificationService.send_broadcast_message`:
the prefixed message, the returned bulk result, the audit row, and the
representative result passed to the logger (`results[0] if results else
None`). -/
structure BroadcastOutcome where
  full_message : String
  bulk : BulkNotificationResult
  audit : Option MessageLog
  representative : Option NotificationResult
deriving Repr

/-- `NotificationService.send_broadcast_message`: its own sequential loop
(it does not call `send_bulk`), aggregation over `len(results)`, and one
audit entry for the whole recipient set. -/
def NotificationService.send_broadcast_message
    (send : String → String → NotificationResult) (db : String → Option String)
    (s : Settings) (members : List Member) (message : String) : BroadcastOutcome :=
  let full_message :=
    MessageTemplates.BROADCAST_PREFIX (MessageTemplates.get_gym_name s) ++ message
  let results := members.map (fun m => send m.phone full_message)
  let successful := results.countP (fun r => r.success)
  let bulk_result : BulkNotificationResult :=
    { total := results.length
      successful := successful
      failed := results.length - successful
      results := results }
  let representative := results.head?
  let audit := NotificationService.log_notification db (LogTarget.many members)
    full_message NotificationType.BROADCAST representative
  { full_message := full_message, bulk := bulk_result, audit := audit,
    representative := representative }

/-- `NotificationService.send_custom_message` (default type `BROADCAST`). -/
def NotificationService.send_custom_message
    (send : String → String → NotificationResult) (db : String → Option String)
    (member : Member) (message : String)
    (notification_type : NotificationType := NotificationType.BROADCAST) : SendOutcome :=
  let result := send member.phone message
  let audit := NotificationService.log_notification db (LogTarget.one member)
    message notification_type (some result)
  { message := message, result := result, audit := audit,
    audit_type := notification_type }

/-- Lowercase hexadecimal digit, the character class `[0-9a-f]`. -/
def isLowerHexDigit (c : Char) : Bool := c.isDigit || ('a' ≤ c && c ≤ 'f')

/-- Decision procedure for the message-id pattern `mock_[0-9a-f]{12}` named
by the spec. -/
def matchesMockIdPattern (s : String) : Bool :=
  match s.data with
  | 'm' :: 'o' :: 'c' :: 'k' :: '_' :: rest =>
    rest.length == 12 && rest.all isLowerHexDigit
  | _ => false

/-- Two strings with equal character lists are equal. -/
theorem str_ext {a b : String} (h : a.data = b.data) : a = b := by
  cases a; cases b; exact congrArg String.mk h

/-- C1: for every integer `days_left ≤ 0` (the call
`send_expiry_reminder(member, 0)`, i.e. `get_expiry_message(name, 0)`,
included), the branch order in the renderer yields the MEMBERSHIP_EXPIRED
text and not the EXPIRY_TODAY text: the `days_left == 0` branch is shadowed
by the preceding `days_left <= 0` check. -/
theorem C1_expired_branch_shadows_today (s : Settings) (name : String)
    (d : Int) (h : d ≤ 0) :
    MessageTemplates.get_expiry_message s name d =
      MessageTemplates.MEMBERSHIP_EXPIRED name (MessageTemplates.get_gym_name s) ∧
    MessageTemplates.get_expiry_message s name d ≠
      MessageTemplates.EXPIRY_TODAY name (MessageTemplates.get_gym_name s) := by
  have heq : MessageTemplates.get_expiry_message s name d =
      MessageTemplates.MEMBERSHIP_EXPIRED name (MessageTemplates.get_gym_name s) := by
    simp [MessageTemplates.get_expiry_message, h]
  refine ⟨heq, ?_⟩
  rw [heq]
  intro hc
  have h2 : (MessageTemplates.MEMBERSHIP_EXPIRED name
        (MessageTemplates.get_gym_name s)).data.head? =
      (MessageTemplates.EXPIRY_TODAY name
        (MessageTemplates.get_gym_name s)).data.head? :=
    congrArg (fun t => t.data.head?) hc
  have hA : (MessageTemplates.MEMBERSHIP_EXPIRED name
      (MessageTemplates.get_gym_name s)).data.head? = some 'H' := rfl
  have hB : (MessageTemplates.EXPIRY_TODAY name
      (MessageTemplates.get_gym_name s)).data.head? = some '⚠' := rfl
  rw [hA, hB] at h2
  exact absurd h2 (by decide)

/-- C1 witness: the Asha scenario at `days_left = 0` under default settings. -/
theorem C1_expired_branch_shadows_today_witness :
    MessageTemplates.get_expiry_message ⟨none, none⟩ "Asha" 0 =
      MessageTemplates.MEMBERSHIP_EXPIRED "Asha"
        (MessageTemplates.get_gym_name ⟨none, none⟩) ∧
    MessageTemplates.get_expiry_message ⟨none, none⟩ "Asha" 0 ≠
      MessageTemplates.EXPIRY_TODAY "Asha"
        (MessageTemplates.get_gym_name ⟨none, none⟩) :=
  C1_expired_branch_shadows_today ⟨none, none⟩ "Asha" 0 (by decide)

/-- C2: for every recipient sequence, both `BaseNotificationProvider.send_bulk`
and `NotificationService.send_broadcast_message` return a
`BulkNotificationResult` with `total = successful + failed = len(results)`,
where `successful` counts the results with `success = true`. -/
theorem C2_bulk_counts_invariant
    (send : String → String → NotificationResult) (db : String → Option String)
    (s : Settings) (recipients : List Recipient) (message : String)
    (members : List Member) (bmessage : String) :
    ((BaseNotificationProvider.send_bulk send recipients message).total =
        (BaseNotificationProvider.send_bulk send recipients message).successful +
          (BaseNotificationProvider.send_bulk send recipients message).failed ∧
      (BaseNotificationProvider.send_bulk send recipients message).total =
        (BaseNotificationProvider.send_bulk send recipients message).results.length ∧
      (BaseNotificationProvider.send_bulk send recipients message).successful =
        (BaseNotificationProvider.send_bulk send recipients message).results.countP
          (fun r => r.success)) ∧
    ((NotificationService.send_broadcast_message send db s members bmessage).bulk.total =
        (NotificationService.send_broadcast_message send db s members bmessage).bulk.successful +
          (NotificationService.send_broadcast_message send db s members bmessage).bulk.failed ∧
      (NotificationService.send_broadcast_message send db s members bmessage).bulk.total =
        (NotificationService.send_broadcast_message send db s members bmessage).bulk.results.length ∧
      (NotificationService.send_broadcast_message send db s members bmessage).bulk.successful =
        (NotificationService.send_broadcast_message send db s members bmessage).bulk.results.countP
          (fun r => r.success)) := by
  have h1 : ((recipients.map (fun r => send r.phone message)).countP
      (fun r => r.success)) ≤ recipients.length := by
    have := List.countP_le_length (l := recipients.map (fun r => send r.phone message))
      (p := fun r => r.success)
    rwa [List.length_map] at this
  have h2 : ((members.map (fun m => send m.phone
      (MessageTemplates.BROADCAST_PREFIX (MessageTemplates.get_gym_name s) ++ bmessage))).countP
      (fun r => r.success)) ≤ (members.map (fun m => send m.phone
      (MessageTemplates.BROADCAST_PREFIX (MessageTemplates.get_gym_name s) ++ bmessage))).length :=
    List.countP_le_length _
  refine ⟨⟨?_, ?_, rfl⟩, ⟨?_, rfl, rfl⟩⟩
  · simp only [BaseNotificationProvider.send_bulk]
    omega
  · simp only [BaseNotificationProvider.send_bulk, List.length_map]
  · simp only [NotificationService.send_broadcast_message]
    omega

/-- C5: `send_broadcast_message` on the empty recipient sequence returns the
all-zero bulk result with `results = []` and derived `success = false`,
passes `None` as the representative result, and any audit row it creates has
an empty recipient association. -/
theorem C5_empty_broadcast
    (send : String → String → NotificationResult) (db : String → Option String)
    (s : Settings) (msg : String) :
    (NotificationService.send_broadcast_message send db s [] msg).bulk =
      { total := 0, successful := 0, failed := 0, results := [] } ∧
    (NotificationService.send_broadcast_message send db s [] msg).bulk.success = false ∧
    (NotificationService.send_broadcast_message send db s [] msg).representative = none ∧
    ((NotificationService.send_broadcast_message send db s [] msg).audit.all
      fun log => log.recipients.isEmpty) = true := by
  refine ⟨rfl, rfl, rfl, ?_⟩
  cases hdb : db ("[" ++ pyUpper NotificationType.BROADCAST.value ++ "] " ++
      (MessageTemplates.BROADCAST_PREFIX (MessageTemplates.get_gym_name s) ++ msg)) <;>
    simp [NotificationService.send_broadcast_message,
      NotificationService.log_notification, hdb, LogTarget.recipients_of]

/-- C8: `_get_provider` never raises: with an empty `_provider` slot it
returns the mock provider and stores it for every configuration value,
warning exactly when the configured name is not `"mock"`; with a filled slot
it returns the stored provider unchanged (lazy process-wide singleton). -/
theorem C8_provider_fallback_and_singleton (s : Settings) (p : ProviderKind) :
    (NotificationService.get_provider none s).provider = ProviderKind.mock ∧
    (NotificationService.get_provider none s).state = some ProviderKind.mock ∧
    (NotificationService.get_provider none s).warned =
      !(s.NOTIFICATION_PROVIDER.getD "mock" == "mock") ∧
    NotificationService.get_provider (some p) s =
      { provider := p, state := some p, warned := false } := by
  refine ⟨?_, ?_, ?_, rfl⟩ <;>
  · unfold NotificationService.get_provider
    by_cases h : s.NOTIFICATION_PROVIDER.getD "mock" = "mock" <;> simp [h]

/-- C10: the observable behaviour of `_log_notification` is independent of
its `result` argument (any two values, `None` included, produce the same
audit row), and any created row's text is the message prefixed with the
uppercase notification-type tag. -/
theorem C10_audit_ignores_result
    (db : String → Option String) (target : LogTarget) (message : String)
    (nt : NotificationType) (r1 r2 : Option NotificationResult) :
    NotificationService.log_notification db target message nt r1 =
      NotificationService.log_notification db target message nt r2 ∧
    ((NotificationService.log_notification db target message nt r1).all
      fun log => log.message == "[" ++ pyUpper nt.value ++ "] " ++ message) = true := by
  refine ⟨rfl, ?_⟩
  cases hdb : db ("[" ++ pyUpper nt.value ++ "] " ++ message) <;>
    simp [NotificationService.log_notification, hdb]

/-- C3 counterexample: uniqueness of mock message ids is not guaranteed by
the code — two distinct calls (different phones, different times) whose
`uuid.uuid4().hex` draws share the same first 12 hex digits return the same
`message_id`. -/
theorem C3_uniqueness_counterexample :
    (MockNotificationProvider.send "00000000000040008000000000000000"
        "2025-01-01T00:00:00+00:00" "1111111111" "hello").message_id =
      (MockNotificationProvider.send "00000000000040008000000000000000"
        "2025-01-02T00:00:00+00:00" "2222222222" "hello").message_id ∧
    ("1111111111" : String) ≠ "2222222222" := ⟨rfl, by decide⟩

/-- C3 amended: `MockNotificationProvider.send` always returns
`success = true`, `status = mock`, `channel = sms`, no error, and a
`message_id` matching `mock_[0-9a-f]{12}` (given that `uuid4().hex` is a
32-character lowercase hex string); ids of two calls are distinct whenever
the first 12 hex digits of their random draws are distinct — uniqueness
holds only up to the randomness, not unconditionally. -/
theorem C3_mock_send_contract
    (tok1 iso1 phone1 msg1 tok2 iso2 phone2 msg2 : String)
    (hlen : tok1.data.length = 32)
    (hhex : tok1.data.all isLowerHexDigit = true)
    (hdistinct : strSlice tok1 12 ≠ strSlice tok2 12) :
    (MockNotificationProvider.send tok1 iso1 phone1 msg1).success = true ∧
    (MockNotificationProvider.send tok1 iso1 phone1 msg1).status = DeliveryStatus.MOCK ∧
    (MockNotificationProvider.send tok1 iso1 phone1 msg1).channel = DeliveryChannel.SMS ∧
    (MockNotificationProvider.send tok1 iso1 phone1 msg1).error = none ∧
    matchesMockIdPattern
      ((MockNotificationProvider.send tok1 iso1 phone1 msg1).message_id.getD "") = true ∧
    (MockNotificationProvider.send tok1 iso1 phone1 msg1).message_id ≠
      (MockNotificationProvider.send tok2 iso2 phone2 msg2).message_id := by
  refine ⟨rfl, rfl, rfl, rfl, ?_, ?_⟩
  · show matchesMockIdPattern ("mock_" ++ strSlice tok1 12) = true
    have hred : matchesMockIdPattern ("mock_" ++ strSlice tok1 12) =
        (((tok1.data.take 12).length == 12) &&
          (tok1.data.take 12).all isLowerHexDigit) := rfl
    have hlen12 : (tok1.data.take 12).length = 12 := by
      simp [List.length_take, hlen]
    have hall : (tok1.data.take 12).all isLowerHexDigit = true := by
      rw [List.all_eq_true] at hhex ⊢
      exact fun x hx => hhex x (List.mem_of_mem_take hx)
    rw [hred, hlen12, hall]
    decide
  · intro hc
    apply hdistinct
    have h2 : ("mock_" ++ strSlice tok1 12) = ("mock_" ++ strSlice tok2 12) :=
      Option.some.inj hc
    have h3 := congrArg String.data h2
    simp only [String.data_append] at h3
    exact str_ext (List.append_cancel_left h3)

/-- C3 witness for the amended contract, at two concrete valid `uuid4().hex`
draws with distinct 12-digit prefixes. -/
theorem C3_mock_send_contract_witness :
    (MockNotificationProvider.send "00000000000040008000000000000000"
        "2025-01-01T00:00:00+00:00" "1111111111" "hello").success = true ∧
    (MockNotificationProvider.send "00000000000040008000000000000000"
        "2025-01-01T00:00:00+00:00" "1111111111" "hello").status = DeliveryStatus.MOCK ∧
    (MockNotificationProvider.send "00000000000040008000000000000000"
        "2025-01-01T00:00:00+00:00" "1111111111" "hello").channel = DeliveryChannel.SMS ∧
    (MockNotificationProvider.send "00000000000040008000000000000000"
        "2025-01-01T00:00:00+00:00" "1111111111" "hello").error = none ∧
    matchesMockIdPattern
      ((MockNotificationProvider.send "00000000000040008000000000000000"
        "2025-01-01T00:00:00+00:00" "1111111111" "hello").message_id.getD "") = true ∧
    (MockNotificationProvider.send "00000000000040008000000000000000"
        "2025-01-01T00:00:00+00:00" "1111111111" "hello").message_id ≠
      (MockNotificationProvider.send "ffffffffffff4000800000000000000f"
        "2025-01-02T00:00:00+00:00" "2222222222" "bye").message_id :=
  C3_mock_send_contract "00000000000040008000000000000000" "2025-01-01T00:00:00+00:00"
    "1111111111" "hello" "ffffffffffff4000800000000000000f" "2025-01-02T00:00:00+00:00"
    "2222222222" "bye" (by decide) (by decide) (by decide)

/-- C4: for every public `NotificationService` operation, the returned
result is exactly the provider's output on the rendered message, and it is
unchanged under any behaviour of the audit write `db` — in particular under
a raising one: an audit failure is swallowed inside `log_notification` and
never alters the value returned to the caller. -/
theorem C4_audit_failure_never_changes_result
    (send : String → String → NotificationResult) (db1 db2 : String → Option String)
    (s : Settings) (m : Member) (d : Int) (amt : String) (nt : NotificationType)
    (members : List Member) (msg : String) :
    ((NotificationService.send_welcome_message send db1 s m).result =
        send m.phone (NotificationService.send_welcome_message send db1 s m).message ∧
      (NotificationService.send_welcome_message send db1 s m).result =
        (NotificationService.send_welcome_message send db2 s m).result) ∧
    ((NotificationService.send_membership_confirmation send db1 s m).result =
        send m.phone (NotificationService.send_membership_confirmation send db1 s m).message ∧
      (NotificationService.send_membership_confirmation send db1 s m).result =
        (NotificationService.send_membership_confirmation send db2 s m).result) ∧
    ((NotificationService.send_expiry_reminder send db1 s m d).result =
        send m.phone (NotificationService.send_expiry_reminder send db1 s m d).message ∧
      (NotificationService.send_expiry_reminder send db1 s m d).result =
        (NotificationService.send_expiry_reminder send db2 s m d).result) ∧
    ((NotificationService.send_renewal_confirmation send db1 s m).result =
        send m.phone (NotificationService.send_renewal_confirmation send db1 s m).message ∧
      (NotificationService.send_renewal_confirmation send db1 s m).result =
        (NotificationService.send_renewal_confirmation send db2 s m).result) ∧
    ((NotificationService.send_payment_reminder send db1 s m amt).result =
        send m.phone (NotificationService.send_payment_reminder send db1 s m amt).message ∧
      (NotificationService.send_payment_reminder send db1 s m amt).result =
        (NotificationService.send_payment_reminder send db2 s m amt).result) ∧
    ((NotificationService.send_custom_message send db1 m msg nt).result =
        send m.phone msg ∧
      (NotificationService.send_custom_message send db1 m msg nt).result =
        (NotificationService.send_custom_message send db2 m msg nt).result) ∧
    ((NotificationService.send_broadcast_message send db1 s members msg).bulk.results =
        members.map (fun mm => send mm.phone
          (NotificationService.send_broadcast_message send db1 s members msg).full_message) ∧
      (NotificationService.send_broadcast_message send db1 s members msg).bulk =
        (NotificationService.send_broadcast_message send db2 s members msg).bulk) :=
  ⟨⟨rfl, rfl⟩, ⟨rfl, rfl⟩, ⟨rfl, rfl⟩, ⟨rfl, rfl⟩, ⟨rfl, rfl⟩, ⟨rfl, rfl⟩, ⟨rfl, rfl⟩⟩

/-- C6: `send_expiry_reminder` renders the MEMBERSHIP_EXPIRED text and tags
the audit entry `MEMBERSHIP_EXPIRED` for every `days_left < 0`, and tags it
`EXPIRY_REMINDER` for every `days_left > 0`. -/
theorem C6_expiry_audit_type
    (send : String → String → NotificationResult) (db : String → Option String)
    (s : Settings) (m : Member) (d : Int) :
    (d < 0 →
      (NotificationService.send_expiry_reminder send db s m d).message =
        MessageTemplates.MEMBERSHIP_EXPIRED m.name (MessageTemplates.get_gym_name s) ∧
      (NotificationService.send_expiry_reminder send db s m d).audit_type =
        NotificationType.MEMBERSHIP_EXPIRED) ∧
    (0 < d →
      (NotificationService.send_expiry_reminder send db s m d).audit_type =
        NotificationType.EXPIRY_REMINDER) := by
  constructor
  · intro h
    have h0 : d ≤ 0 := le_of_lt h
    constructor
    · simp [NotificationService.send_expiry_reminder,
        MessageTemplates.get_expiry_message, h0]
    · simp [NotificationService.send_expiry_reminder, h0]
  · intro h
    have h0 : ¬ d ≤ 0 := by omega
    simp [NotificationService.send_expiry_reminder, h0]

/-- C6 witness: the expired branch at `days_left = -1` and the reminder
branch at `days_left = 2`, with the mock provider and a succeeding audit
write. -/
theorem C6_expiry_audit_type_witness :
    ((-1 : Int) < 0 ∧
      ((NotificationService.send_expiry_reminder
          (MockNotificationProvider.send "00000000000040008000000000000000"
            "2025-01-01T00:00:00+00:00")
          (fun _ => none) ⟨none, none⟩ ⟨"Asha", "9876543210", "both", none⟩ (-1)).message =
        MessageTemplates.MEMBERSHIP_EXPIRED "Asha"
          (MessageTemplates.get_gym_name ⟨none, none⟩) ∧
      (NotificationService.send_expiry_reminder
          (MockNotificationProvider.send "00000000000040008000000000000000"
            "2025-01-01T00:00:00+00:00")
          (fun _ => none) ⟨none, none⟩ ⟨"Asha", "9876543210", "both", none⟩ (-1)).audit_type =
        NotificationType.MEMBERSHIP_EXPIRED)) ∧
    ((0 : Int) < 2 ∧
      (NotificationService.send_expiry_reminder
          (MockNotificationProvider.send "00000000000040008000000000000000"
            "2025-01-01T00:00:00+00:00")
          (fun _ => none) ⟨none, none⟩ ⟨"Asha", "9876543210", "both", none⟩ 2).audit_type =
        NotificationType.EXPIRY_REMINDER) :=
  ⟨⟨by decide,
    (C6_expiry_audit_type
      (MockNotificationProvider.send "00000000000040008000000000000000"
        "2025-01-01T00:00:00+00:00")
      (fun _ => none) ⟨none, none⟩ ⟨"Asha", "9876543210", "both", none⟩ (-1)).1 (by decide)⟩,
   ⟨by decide,
    (C6_expiry_audit_type
      (MockNotificationProvider.send "00000000000040008000000000000000"
        "2025-01-01T00:00:00+00:00")
      (fun _ => none) ⟨none, none⟩ ⟨"Asha", "9876543210", "both", none⟩ 2).2 (by decide)⟩⟩

set_option maxRecDepth 8192 in
/-- C7 counterexample: the claim says the rendered reminder ends with
"day"/"days", but for `days_left = 1` (and likewise 2) the message ends
with the fixed closing sentence, not with the day word. -/
theorem C7_endswith_counterexample :
    ((MessageTemplates.get_expiry_message ⟨none, none⟩ "Asha" 1).endsWith "day") = false ∧
    ((MessageTemplates.get_expiry_message ⟨none, none⟩ "Asha" 2).endsWith "days") = false := by
  constructor <;> decide

/-- C7 amended: for every `days_left > 0` the rendered reminder contains the
pluralized day word — "day" exactly when `days_left = 1`, else "days"
(`plural = 's' if days_left != 1 else ''`) — immediately before the fixed
closing sentence, rather than at the very end of the message. -/
theorem C7_pluralized_day_suffix (s : Settings) (name : String) (d : Int)
    (h : 0 < d) :
    ∃ pre : String,
      MessageTemplates.get_expiry_message s name d =
        pre ++ ((if d = 1 then "day" else "days") ++
          ". Renew now to continue your fitness journey without interruption! 💪") := by
  refine ⟨"Hi " ++ name ++ ", your " ++ MessageTemplates.get_gym_name s ++
    " membership expires in " ++ toString d ++ " ", ?_⟩
  have h0 : ¬ d ≤ 0 := by omega
  by_cases h1 : d = 1
  · subst h1
    apply str_ext
    simp [MessageTemplates.get_expiry_message, MessageTemplates.EXPIRY_REMINDER,
      String.data_append, List.append_assoc]
  · have h2 : ¬ d = 0 := by omega
    apply str_ext
    simp [MessageTemplates.get_expiry_message, MessageTemplates.EXPIRY_REMINDER,
      h0, h1, h2, String.data_append, List.append_assoc]

/-- C7 witness: the amended decomposition at `days_left = 1` under default
settings. -/
theorem C7_pluralized_day_suffix_witness :
    (0 : Int) < 1 ∧
    ∃ pre : String,
      MessageTemplates.get_expiry_message ⟨none, none⟩ "Asha" 1 =
        pre ++ ((if (1 : Int) = 1 then "day" else "days") ++
          ". Renew now to continue your fitness journey without interruption! 💪") :=
  ⟨by decide, C7_pluralized_day_suffix ⟨none, none⟩ "Asha" 1 (by decide)⟩

/-- C9: `send_membership_confirmation` renders the human label found for the
member's plan code in `PLAN_CHOICES`, falls back to the raw code when the
lookup fails, and renders "N/A" for the validity date when `end_date` is
unset. -/
theorem C9_confirmation_plan_label_and_na
    (send : String → String → NotificationResult) (db : String → Option String)
    (s : Settings) (m : Member) (label : String) :
    (List.lookup m.membership_plan Member.PLAN_CHOICES = some label →
      (NotificationService.send_membership_confirmation send db s m).message =
        MessageTemplates.MEMBERSHIP_CONFIRMATION (MessageTemplates.get_gym_name s)
          m.name label (end_date_display m.end_date)) ∧
    (List.lookup m.membership_plan Member.PLAN_CHOICES = none →
      (NotificationService.send_membership_confirmation send db s m).message =
        MessageTemplates.MEMBERSHIP_CONFIRMATION (MessageTemplates.get_gym_name s)
          m.name m.membership_plan (end_date_display m.end_date)) ∧
    (m.end_date = none →
      (NotificationService.send_membership_confirmation send db s m).message =
        MessageTemplates.MEMBERSHIP_CONFIRMATION (MessageTemplates.get_gym_name s)
          m.name ((List.lookup m.membership_plan Member.PLAN_CHOICES).getD m.membership_plan)
          "N/A") := by
  refine ⟨?_, ?_, ?_⟩ <;> intro h <;>
    simp [NotificationService.send_membership_confirmation, h, end_date_display]

/-- C9 witness: a mapped plan code ("both" → "Strength + Cardio"), an
unmapped one ("gold"), and an unset end date rendering "N/A". -/
theorem C9_confirmation_plan_label_and_na_witness :
    (List.lookup "both" Member.PLAN_CHOICES = some "Strength + Cardio" ∧
      (NotificationService.send_membership_confirmation
          (MockNotificationProvider.send "00000000000040008000000000000000"
            "2025-01-01T00:00:00+00:00")
          (fun _ => none) ⟨none, none⟩
          ⟨"Ravi", "1234512345", "both", some ⟨2025, 3, 5⟩⟩).message =
        MessageTemplates.MEMBERSHIP_CONFIRMATION (MessageTemplates.get_gym_name ⟨none, none⟩)
          "Ravi" "Strength + Cardio" (end_date_display (some ⟨2025, 3, 5⟩))) ∧
    (List.lookup "gold" Member.PLAN_CHOICES = none ∧
      (NotificationService.send_membership_confirmation
          (MockNotificationProvider.send "00000000000040008000000000000000"
            "2025-01-01T00:00:00+00:00")
          (fun _ => none) ⟨none, none⟩
          ⟨"Meera", "1234512346", "gold", some ⟨2025, 3, 5⟩⟩).message =
        MessageTemplates.MEMBERSHIP_CONFIRMATION (MessageTemplates.get_gym_name ⟨none, none⟩)
          "Meera" "gold" (end_date_display (some ⟨2025, 3, 5⟩))) ∧
    ((NotificationService.send_membership_confirmation
          (MockNotificationProvider.send "00000000000040008000000000000000"
            "2025-01-01T00:00:00+00:00")
          (fun _ => none) ⟨none, none⟩
          ⟨"Asha", "1234512347", "cardio", none⟩).message =
        MessageTemplates.MEMBERSHIP_CONFIRMATION (MessageTemplates.get_gym_name ⟨none, none⟩)
          "Asha" ((List.lookup "cardio" Member.PLAN_CHOICES).getD "cardio") "N/A") :=
  ⟨⟨by decide,
    (C9_confirmation_plan_label_and_na
      (MockNotificationProvider.send "00000000000040008000000000000000"
        "2025-01-01T00:00:00+00:00")
      (fun _ => none) ⟨none, none⟩
      ⟨"Ravi", "1234512345", "both", some ⟨2025, 3, 5⟩⟩ "Strength + Cardio").1 (by decide)⟩,
   ⟨by decide,
    (C9_confirmation_plan_label_and_na
      (MockNotificationProvider.send "00000000000040008000000000000000"
        "2025-01-01T00:00:00+00:00")
      (fun _ => none) ⟨none, none⟩
      ⟨"Meera", "1234512346", "gold", some ⟨2025, 3, 5⟩⟩ "").2.1 (by decide)⟩,
   (C9_confirmation_plan_label_and_na
      (MockNotificationProvider.send "00000000000040008000000000000000"
        "2025-01-01T00:00:00+00:00")
      (fun _ => none) ⟨none, none⟩
      ⟨"Asha", "1234512347", "cardio", none⟩ "").2.2 rfl⟩
